/-
Verification of the guillotine benchmark drivers.

This file gives a shallow embedding of the two Rust benchmark drivers of the
repository:

* `src/bench/official/evms/revm/src/main.rs` — the revm EVM benchmark driver
  (argument loop, hex decoding, contract-deployment constructor synthesis,
  and the timed `transact`/`commit` run loop), and
* `src/bench/official/src/crypto/rust/src/main.rs` — the arkworks crypto
  benchmark driver (clap argument matching, the per-operation internal run
  counts, and `benchmark_operation`'s generate-then-time structure).

External library behaviour (revm's `transact`/`commit`, arkworks arithmetic,
wall-clock time) is abstracted by explicit parameters or oracles; everything
the drivers themselves do is translated directly from the source.
-/
import Mathlib

namespace Guillotine

/-! ## Process-level observations -/

/-- Observable exit of a modelled process: normal success (status zero),
`std::process::exit(code)`, or a Rust panic (from `unwrap`/`expect` or an
out-of-bounds index). -/
inductive ExitStatus where
  | success
  | exitFailure (code : Nat)
  | panicked
deriving DecidableEq, Repr

/-- Observable output of a modelled process: the stdout lines (each line is
the single numeric timing value that the driver's `println!` emits, modelled
as a rational) together with the exit status. -/
structure ProcOut where
  lines : List Rat
  status : ExitStatus
deriving DecidableEq, Repr

/-! ## Rust unsigned-integer string parsing

Both drivers parse run counts with `str::parse::<uN>()` (the revm driver into
a `u8`, the crypto driver into a `u32`).  Rust's unsigned `from_str` accepts
an optional leading `+` followed by one or more ASCII digits and fails on
anything else or on overflow of the target width. -/

/-- Value of one ASCII digit, `none` for a non-digit. -/
def digitVal (c : Char) : Option Nat :=
  if c.isDigit then some (c.toNat - 48) else none

/-- Accumulate decimal digits left to right; `none` on the first non-digit. -/
def parseDigitsAux (acc : Nat) : List Char → Option Nat
  | [] => some acc
  | c :: rest =>
    match digitVal c with
    | some d => parseDigitsAux (10 * acc + d) rest
    | none => none

/-- Strip one optional leading `+` sign, as Rust's integer `from_str` does. -/
def stripPlus : List Char → List Char
  | '+' :: rest => rest
  | l => l

/-- Decimal value of a nonempty all-digit character list, `none` for the
empty list or on a non-digit. -/
def parseDigitsNonempty : List Char → Option Nat
  | [] => none
  | l => parseDigitsAux 0 l

/-- `s.parse::<uN>()` for an unsigned type with maximum value `maxVal`:
optional `+`, then a nonempty digit string whose value fits the width. -/
def rustParseUnsigned (maxVal : Nat) (s : List Char) : Option Nat :=
  (parseDigitsNonempty (stripPlus s)).bind
    (fun v => if v ≤ maxVal then some v else none)

/-- `u32::MAX`, the width the crypto driver parses `--num-runs` into. -/
def u32Max : Nat := 2 ^ 32 - 1

/-! ## revm driver: argument loop (main.rs lines 11–36)

The source walks `args[1..]` with an index, recognising the three flags,
reading `args[i + 1]` as the flag's value (an out-of-bounds index panics),
and silently skipping any other argument.  `--num-runs` is parsed into a
`u8` with `.parse().unwrap()`. -/

/-- The mutable locals of the revm driver's argument loop, with their
initial values (`main.rs` lines 15–17; `num_runs` is a `u8` defaulting
to 1). -/
structure RevmArgs where
  contractCodePath : String := ""
  calldataHex : String := ""
  numRuns : Nat := 1
deriving DecidableEq, Repr

/-- The `while i < args.len()` flag loop of the revm driver (`main.rs`
lines 19–36).  `none` models a panic: either `args[i + 1]` out of bounds
or a failed `u8` parse under `.unwrap()`. -/
def revmParseLoop : List String → RevmArgs → Option RevmArgs
  | [], acc => some acc
  | "--contract-code-path" :: v :: rest, acc =>
    revmParseLoop rest { acc with contractCodePath := v }
  | ["--contract-code-path"], _ => none
  | "--calldata" :: v :: rest, acc =>
    revmParseLoop rest { acc with calldataHex := v }
  | ["--calldata"], _ => none
  | "--num-runs" :: v :: rest, acc =>
    (match rustParseUnsigned 255 v.toList with
     | some n => revmParseLoop rest { acc with numRuns := n }
     | none => none)
  | ["--num-runs"], _ => none
  | _ :: rest, acc => revmParseLoop rest acc

/-- Argument parsing of the revm driver, applied to `args[1..]` (everything
after the program name). -/
def revmParseArgs (args : List String) : Option RevmArgs :=
  revmParseLoop args {}

example : revmParseArgs ["--num-runs", "7"] =
    some { contractCodePath := "", calldataHex := "", numRuns := 7 } := by decide

example : revmParseArgs ["--num-runs", "256"] = none := by decide

example : revmParseArgs ["stray", "--calldata", "0xab"] =
    some { contractCodePath := "", calldataHex := "0xab", numRuns := 1 } := by decide

/-! ## Crypto driver: operations and internal run counts

From `src/bench/official/src/crypto/rust/src/main.rs`. -/

/-- The `value_parser` whitelist of the crypto driver's `--operation` flag
(`main.rs` lines 195–198). -/
def allowedOperations : List String :=
  ["FpMont.add", "FpMont.mul", "Fp2Mont.mul", "Fp6Mont.mul",
   "Fp12Mont.mul", "G1.add", "G1.mul", "G2.add", "G2.mul", "Pairing"]

/-- Whether `benchmark_operation` has a named match arm for `operation`
(`main.rs` lines 14–174); the wildcard arm prints an error and calls
`std::process::exit(1)` (lines 175–178). -/
def knownOperation (op : String) : Bool :=
  match op with
  | "FpMont.add" => true
  | "FpMont.mul" => true
  | "Fp2Mont.mul" => true
  | "Fp6Mont.mul" => true
  | "Fp12Mont.mul" => true
  | "G1.add" => true
  | "G1.mul" => true
  | "G2.add" => true
  | "G2.mul" => true
  | "Pairing" => true
  | _ => false

/-- The `internal_runs` selection in the crypto driver's `main`
(`main.rs` lines 216–228), including the `_ => 1000` fallback arm. -/
def internalRunsFor (op : String) : Nat :=
  match op with
  | "FpMont.add" => 400000
  | "FpMont.mul" => 200000
  | "Fp2Mont.mul" => 100000
  | "Fp6Mont.mul" => 20000
  | "Fp12Mont.mul" => 10000
  | "G1.add" => 40000
  | "G1.mul" => 2000
  | "G2.add" => 20000
  | "G2.mul" => 800
  | "Pairing" => 200
  | _ => 1000

/-! ## Crypto driver: event trace of `benchmark_operation`

Every named arm of `benchmark_operation` has the same shape: push
`internal_runs` random elements into each of two vectors, start the timer,
run `internal_runs` library invocations, and (after the match, line 181)
read the elapsed time.  The trace records those observable steps. -/

/-- One observable step inside the crypto driver. -/
inductive Ev where
  | genInput (vec : String) (i : Nat)
  | timerStart
  | libCall (op : String) (i : Nat)
  | timerStop
  | exitProcess (code : Nat)
deriving DecidableEq, Repr

/-- `e` is an input-generation event. -/
def Ev.isGen : Ev → Bool
  | .genInput _ _ => true
  | _ => false

/-- `e` is an external-library invocation event. -/
def Ev.isCall : Ev → Bool
  | .libCall _ _ => true
  | _ => false

/-- The input-generation loop of one arm: iteration `i` pushes a random
element into the vector named `v1` and then one into `v2`. -/
def genEvents (v1 v2 : String) (ir : Nat) : List Ev :=
  (List.range ir).flatMap (fun i => [Ev.genInput v1 i, Ev.genInput v2 i])

/-- The timed loop of one arm: `internal_runs` invocations of the external
operation. -/
def callEvents (op : String) (ir : Nat) : List Ev :=
  (List.range ir).map (fun i => Ev.libCall op i)

/-- The body of the `match operation` in `benchmark_operation`
(`main.rs` lines 14–179): each named arm generates its two input vectors,
starts the timer and runs the timed loop; the wildcard arm exits the
process, modelled as `none`. -/
def benchBody (op : String) (ir : Nat) : Option (List Ev) :=
  match op with
  | "FpMont.add" =>
    some (genEvents "inputs_a" "inputs_b" ir ++ [Ev.timerStart] ++ callEvents "FpMont.add" ir)
  | "FpMont.mul" =>
    some (genEvents "inputs_a" "inputs_b" ir ++ [Ev.timerStart] ++ callEvents "FpMont.mul" ir)
  | "Fp2Mont.mul" =>
    some (genEvents "inputs_a" "inputs_b" ir ++ [Ev.timerStart] ++ callEvents "Fp2Mont.mul" ir)
  | "Fp6Mont.mul" =>
    some (genEvents "inputs_a" "inputs_b" ir ++ [Ev.timerStart] ++ callEvents "Fp6Mont.mul" ir)
  | "Fp12Mont.mul" =>
    some (genEvents "inputs_a" "inputs_b" ir ++ [Ev.timerStart] ++ callEvents "Fp12Mont.mul" ir)
  | "G1.add" =>
    some (genEvents "inputs_a" "inputs_b" ir ++ [Ev.timerStart] ++ callEvents "G1.add" ir)
  | "G1.mul" =>
    some (genEvents "inputs" "scalars" ir ++ [Ev.timerStart] ++ callEvents "G1.mul" ir)
  | "G2.add" =>
    some (genEvents "inputs_a" "inputs_b" ir ++ [Ev.timerStart] ++ callEvents "G2.add" ir)
  | "G2.mul" =>
    some (genEvents "inputs" "scalars" ir ++ [Ev.timerStart] ++ callEvents "G2.mul" ir)
  | "Pairing" =>
    some (genEvents "g1_inputs" "g2_inputs" ir ++ [Ev.timerStart] ++ callEvents "Pairing" ir)
  | _ => none

/-- Full observable trace of one `benchmark_operation` call: the matched
arm followed by the `start.elapsed()` read of line 181, or the
`exit(1)` of the wildcard arm. -/
def benchTrace (op : String) (ir : Nat) : List Ev :=
  match benchBody op ir with
  | some t => t ++ [Ev.timerStop]
  | none => [Ev.exitProcess 1]

/-- Number of external-library invocations recorded in a trace. -/
def countCalls (t : List Ev) : Nat :=
  (t.filter Ev.isCall).length

example : benchTrace "Pairing" 2 =
    [Ev.genInput "g1_inputs" 0, Ev.genInput "g2_inputs" 0,
     Ev.genInput "g1_inputs" 1, Ev.genInput "g2_inputs" 1,
     Ev.timerStart, Ev.libCall "Pairing" 0, Ev.libCall "Pairing" 1,
     Ev.timerStop] := by decide

example : benchTrace "bogus" 2 = [Ev.exitProcess 1] := by decide

example : countCalls (benchTrace "G1.mul" 3) = 3 := by decide

/-! ## Crypto driver: benchmark inputs

`benchmark_operation` starts with `let mut rng = test_rng();` — a fresh,
fixed-seed deterministic generator — and every named arm fills two local
vectors by alternately drawing one sample for each (`a.push(rand)` then
`b.push(rand)` per iteration).  Samples are modelled as opaque tokens: the
`k`-th draw from the fresh generator is the token `k`. -/

/-- The interleaved generation loop of one arm: starting from generator
state `r`, `n` iterations each push the next sample into the first vector
and the one after into the second; returns both vectors and the final
generator state. -/
def genPairVecs (r : Nat) : Nat → List Nat × List Nat × Nat
  | 0 => ([], [], r)
  | n + 1 =>
    let rest := genPairVecs (r + 2) n
    (r :: rest.1, (r + 1) :: rest.2.1, rest.2.2)

/-- The two input vectors a single `benchmark_operation` call creates for a
known operation: both are built inside the call from the fresh fixed-seed
`test_rng()` (state 0), so they depend only on the operation and on
`internal_runs`; the wildcard arm creates none. -/
def benchInputs (op : String) (ir : Nat) : Option (List Nat × List Nat) :=
  if knownOperation op then
    some ((genPairVecs 0 ir).1, (genPairVecs 0 ir).2.1)
  else none

/-- The input vectors created by each iteration of the crypto driver's
`for _ in 0..num_runs` loop (`main.rs` lines 231–234): every run is a fresh
call `benchmark_operation(operation, internal_runs)` with the same
arguments and no state flowing in from earlier runs. -/
def cryptoRunInputs (op : String) (ir n : Nat) : List (Option (List Nat × List Nat)) :=
  (List.range n).map (fun _ => benchInputs op ir)

/-! ## Crypto driver: clap argument matching and `main` -/

/-- A clap usage error: a required argument was not provided, or a value
failed the `value_parser` whitelist. -/
inductive ClapError where
  | missingRequired (arg : String)
  | invalidValue (arg : String)
deriving DecidableEq, Repr

/-- The clap `get_matches` of the crypto driver (`main.rs` lines 186–207):
`--operation` is required and validated against `allowedOperations`;
`--num-runs` is required; values are returned as raw strings. -/
def cryptoGetMatches (operationArg numRunsArg : Option String) :
    Except ClapError (String × String) :=
  match operationArg with
  | none => .error (.missingRequired "operation")
  | some op =>
    if op ∈ allowedOperations then
      match numRunsArg with
      | none => .error (.missingRequired "num-runs")
      | some nr => .ok (op, nr)
    else .error (.invalidValue "operation")

/-- The crypto driver's `main` (`main.rs` lines 185–235).  `elapsedOf k` is
the wall-clock oracle giving the elapsed milliseconds printed by run `k`.
A clap error exits with status 2; a failed `u32` parse of `--num-runs`
panics via `.expect`; an unknown operation would exit with status 1 from
inside the first `benchmark_operation` call; otherwise the loop prints one
timing line per run and the process ends with status zero. -/
def cryptoMain (elapsedOf : Nat → Rat) (operationArg numRunsArg : Option String) :
    ProcOut :=
  match cryptoGetMatches operationArg numRunsArg with
  | .error _ => { lines := [], status := .exitFailure 2 }
  | .ok (operation, numRunsStr) =>
    match rustParseUnsigned u32Max numRunsStr.toList with
    | none => { lines := [], status := .panicked }
    | some num_runs =>
      if num_runs = 0 then { lines := [], status := .success }
      else if knownOperation operation then
        { lines := (List.range num_runs).map elapsedOf, status := .success }
      else { lines := [], status := .exitFailure 1 }

example : (cryptoMain (fun _ => 0) (some "Pairing") (some "3")).lines.length = 3 := by
  decide

example : cryptoMain (fun _ => 0) (some "bogus") (some "3") =
    { lines := [], status := .exitFailure 2 } := by decide

/-! ## revm driver: hex decoding and string trimming

`main.rs` lines 41–43: the contract code file content is `.trim()`med, both
hex strings are stripped of a leading `0x` with `trim_start_matches` (which
removes every successive occurrence of the pattern), and `hex::decode`
turns an even-length hex string into bytes, failing otherwise. -/

/-- Value of one hexadecimal digit, `none` for a non-hex character. -/
def hexVal (c : Char) : Option Nat :=
  if c.isDigit then some (c.toNat - 48)
  else if 'a' ≤ c ∧ c ≤ 'f' then some (c.toNat - 87)
  else if 'A' ≤ c ∧ c ≤ 'F' then some (c.toNat - 55)
  else none

/-- `hex::decode`: pairs of hex digits to bytes; odd length or a non-hex
character fails. -/
def hexDecode : List Char → Option (List Nat)
  | [] => some []
  | c1 :: c2 :: rest =>
    match hexVal c1, hexVal c2, hexDecode rest with
    | some h, some l, some bs => some ((16 * h + l) :: bs)
    | _, _, _ => none
  | [_] => none

/-- Rust `str::trim_start_matches("0x")`: remove every successive leading
`0x`. -/
def trim0x : List Char → List Char
  | '0' :: 'x' :: rest => trim0x rest
  | l => l

/-- Rust `str::trim`: drop leading and trailing whitespace. -/
def trimChars (l : List Char) : List Char :=
  ((l.dropWhile Char.isWhitespace).reverse.dropWhile Char.isWhitespace).reverse

example : hexDecode (trim0x (trimChars " 0x6001 ".toList)) = some [0x60, 0x01] := by
  decide

/-! ## revm driver: the benchmark run loop and `main`

`main.rs` lines 73–84: each iteration starts a timer, calls
`evm.transact().unwrap()`, reads the elapsed time, commits the resulting
state changes into the shared database, and prints the elapsed time.  The
external library is abstracted: `transact` maps a database state to an
optional transaction result (`none` models an `Err` hit by `.unwrap()`),
`commit` folds a result's state changes into the database, and `elapsedOf k`
is the wall-clock oracle for run `k`. -/

/-- The `for _ in 0..num_runs` loop of the revm driver, threading the
database through `commit` and collecting one printed line per run; `k` is
the index of the next run. -/
def revmRunsOut {DB TxRes : Type} (transact : DB → Option TxRes)
    (commit : DB → TxRes → DB) (elapsedOf : Nat → Rat) :
    Nat → DB → Nat → ProcOut
  | 0, _, _ => { lines := [], status := .success }
  | n + 1, db, k =>
    match transact db with
    | none => { lines := [], status := .panicked }
    | some r =>
      let rest := revmRunsOut transact commit elapsedOf n (commit db r) (k + 1)
      { lines := elapsedOf k :: rest.lines, status := rest.status }

/-- The revm driver's `main` (`main.rs` lines 11–85): parse the flags
(panicking on a bad `--num-runs`), read the contract code file
(`fileContent` is the oracle for `fs::read_to_string`, `none` = I/O error),
hex-decode the trimmed file content and the calldata, deploy the contract
(`deployResult` abstracts the external create transaction; `none` means
`deploy_contract` returned `Err` and `.unwrap()` panics), then run the
timed loop. -/
def revmMain {DB TxRes : Type} (transact : DB → Option TxRes)
    (commit : DB → TxRes → DB) (db0 : DB) (elapsedOf : Nat → Rat)
    (fileContent : Option String) (deployResult : Option Nat)
    (args : List String) : ProcOut :=
  match revmParseArgs args with
  | none => { lines := [], status := .panicked }
  | some cfg =>
    match fileContent with
    | none => { lines := [], status := .panicked }
    | some content =>
      match hexDecode (trim0x (trimChars content.toList)) with
      | none => { lines := [], status := .panicked }
      | some _contractCode =>
        match hexDecode (trim0x cfg.calldataHex.toList) with
        | none => { lines := [], status := .panicked }
        | some _calldata =>
          match deployResult with
          | none => { lines := [], status := .panicked }
          | some _addr => revmRunsOut transact commit elapsedOf cfg.numRuns db0 0

/-- The database states seen by the successive iterations of the revm run
loop: iteration `k` executes `transact` against the `k`-th element, and the
next iteration sees the database produced by committing its result
(`main.rs` lines 73–84, in particular line 81). -/
def revmDbTrace {DB TxRes : Type} (transact : DB → TxRes)
    (commit : DB → TxRes → DB) : Nat → DB → List DB
  | 0, _ => []
  | n + 1, db => db :: revmDbTrace transact commit n (commit db (transact db))

example :
    (revmMain (fun _ : Unit => some 0) (fun d _ => d) () (fun _ => 0)
      (some "6001") (some 5) ["--num-runs", "2"]).lines.length = 2 := by decide

example : revmDbTrace (fun db : Nat => db) (fun db _ => db + 1) 3 0 = [0, 1, 2] := by
  decide

/-! ## revm driver: statement-order trace

The observable step order of the revm `main`: read the contract file,
decode both hex strings, deploy the contract, build the `Evm` instance
once, then for each run start the timer, transact, stop the timer, commit,
and print (`main.rs` lines 41–84). -/

/-- One observable step of the revm driver's `main`. -/
inductive REv where
  | readFile
  | hexDecodeStep
  | deployStep
  | buildEvm
  | timerStart
  | transactCall
  | timerStop
  | commitCall
  | printLine
deriving DecidableEq, Repr

/-- Steps of the revm `main` before the benchmark loop (lines 41–70). -/
def revmSetupTrace : List REv :=
  [REv.readFile, REv.hexDecodeStep, REv.hexDecodeStep, REv.deployStep, REv.buildEvm]

/-- Steps of one iteration of the benchmark loop (lines 73–84). -/
def revmRunTrace : List REv :=
  [REv.timerStart, REv.transactCall, REv.timerStop, REv.commitCall, REv.printLine]

/-- The full statement-order trace of the revm `main` with `n` runs. -/
def revmMainTrace (n : Nat) : List REv :=
  revmSetupTrace ++ (List.range n).flatMap (fun _ => revmRunTrace)

/-- Number of `transact` invocations in a revm trace. -/
def countTransacts (t : List REv) : Nat :=
  (t.filter (fun e => e == REv.transactCall)).length

example : countTransacts revmRunTrace = 1 := by decide

/-! ## revm driver: `deploy_contract` constructor synthesis

`main.rs` lines 87–200.  The deployment bytecode is a synthesised
constructor followed by the runtime code.  The construction emits a PUSH of
the runtime size (PUSH1/PUSH2/PUSH3/PUSH4 by range, erroring above
`0xFFFFFFFF`), then computes the total constructor length to use as the
CODECOPY source offset, emits that offset as PUSH1 or PUSH2 (erroring above
`0xFFFF`), then `PUSH1 0`, `CODECOPY`, a second size PUSH, `PUSH1 0`, and
`RETURN`.  `as u8` casts are `% 256`, `>> k` is division by `2 ^ k`. -/

/-- First size PUSH (`main.rs` lines 99–120): opcode and big-endian bytes
for `runtime_size`, or the `Err` for code above `0xFFFFFFFF` bytes. -/
def firstPush (runtime_size : Nat) : Except String (List Nat) :=
  if runtime_size ≤ 0xFF then
    .ok [0x60, runtime_size % 256]
  else if runtime_size ≤ 0xFFFF then
    .ok [0x61, runtime_size / 256 % 256, runtime_size % 256]
  else if runtime_size ≤ 0xFFFFFF then
    .ok [0x62, runtime_size / 65536 % 256, runtime_size / 256 % 256, runtime_size % 256]
  else if runtime_size ≤ 0xFFFFFFFF then
    .ok [0x63, runtime_size / 16777216 % 256, runtime_size / 65536 % 256,
         runtime_size / 256 % 256, runtime_size % 256]
  else .error "Runtime code too large"

/-- Byte count budgeted for the second size PUSH (`main.rs`
lines 131–139). -/
def secondPushSizeAdd (runtime_size : Nat) : Nat :=
  if runtime_size ≤ 0xFF then 2
  else if runtime_size ≤ 0xFFFF then 3
  else if runtime_size ≤ 0xFFFFFF then 4
  else 5

/-- Second size PUSH, emitted for the RETURN size (`main.rs`
lines 171–189; its final arm emits PUSH4 unconditionally). -/
def secondPush (runtime_size : Nat) : List Nat :=
  if runtime_size ≤ 0xFF then [0x60, runtime_size % 256]
  else if runtime_size ≤ 0xFFFF then
    [0x61, runtime_size / 256 % 256, runtime_size % 256]
  else if runtime_size ≤ 0xFFFFFF then
    [0x62, runtime_size / 65536 % 256, runtime_size / 256 % 256, runtime_size % 256]
  else
    [0x63, runtime_size / 16777216 % 256, runtime_size / 65536 % 256,
     runtime_size / 256 % 256, runtime_size % 256]

/-- The `constructor_size` accumulator as of `main.rs` line 142: the first
PUSH already emitted, plus `PUSH1 0` and `CODECOPY`, plus the budget for the
second size PUSH, plus `PUSH1 0` and `RETURN` — everything except the
offset PUSH itself. -/
def constructorSizeBeforeOffset (runtime_size firstLen : Nat) : Nat :=
  firstLen + (1 + 1) + 1 + secondPushSizeAdd runtime_size + (1 + 1) + 1

/-- The complete constructor byte sequence that `deploy_contract` prepends
to the runtime code (`main.rs` lines 96–199), or the `Err` of one of its
two size guards. -/
def deployConstructorCode (runtime_size : Nat) : Except String (List Nat) :=
  match firstPush runtime_size with
  | .error e => .error e
  | .ok first =>
    let size0 := constructorSizeBeforeOffset runtime_size first.length
    let constructor_size := if size0 ≤ 0xFF then size0 + 2 else size0 + 3
    if constructor_size ≤ 0xFF then
      .ok (first ++ [0x60, constructor_size % 256] ++ [0x60, 0x00, 0x39]
            ++ secondPush runtime_size ++ [0x60, 0x00, 0xf3])
    else if constructor_size ≤ 0xFFFF then
      .ok (first ++ [0x61, constructor_size / 256 % 256, constructor_size % 256]
            ++ [0x60, 0x00, 0x39] ++ secondPush runtime_size ++ [0x60, 0x00, 0xf3])
    else .error "Constructor too large"

example : deployConstructorCode 3 =
    .ok [0x60, 3, 0x60, 12, 0x60, 0, 0x39, 0x60, 3, 0x60, 0, 0xf3] := by rfl

example : deployConstructorCode 300 =
    .ok [0x61, 1, 44, 0x60, 14, 0x60, 0, 0x39, 0x61, 1, 44, 0x60, 0, 0xf3] := by rfl

/-! ## Positional-argument driver (not among the provided sources) -/

/-- Run mode selector of the positional-argument benchmark drivers. -/
inductive RunMode where
  | modeInternal
  | modeExternal
deriving DecidableEq, Repr

/-- Modelled from the spec: the number in the positional `<num_runs>`
argument, a plain nonempty decimal run count. -/
def specParseNum (s : String) : Option Nat :=
  match s.toList with
  | [] => none
  | l => parseDigitsAux 0 l

/-- Modelled from the spec: the external-interfaces section lists, beside
the flag-based drivers embedded above, a positional argument form
`<num_runs> [internal|external]` belonging to a benchmark driver of the
repository whose source is not among the provided files — a run count
followed by an optional `internal`/`external` mode selector. -/
def positionalParse (args : List String) : Option (Nat × Option RunMode) :=
  match args with
  | [n] => (specParseNum n).map (fun v => (v, none))
  | [n, "internal"] => (specParseNum n).map (fun v => (v, some RunMode.modeInternal))
  | [n, "external"] => (specParseNum n).map (fun v => (v, some RunMode.modeExternal))
  | _ => none

example : positionalParse ["10", "internal"] = some (10, some RunMode.modeInternal) := by
  decide

/-! ## Helper lemmas -/

/-- Every operation on the clap whitelist has a named `benchmark_operation`
arm. -/
lemma knownOperation_of_mem {op : String} (h : op ∈ allowedOperations) :
    knownOperation op = true := by
  fin_cases h <;> rfl

/-- Both generated input vectors have one element per internal run. -/
lemma genPairVecs_length (r n : Nat) :
    (genPairVecs r n).1.length = n ∧ (genPairVecs r n).2.1.length = n := by
  induction n generalizing r with
  | zero => simp [genPairVecs]
  | succ n ih => simp [genPairVecs, (ih (r + 2)).1, (ih (r + 2)).2]

/-- Input-generation events contain no library calls. -/
lemma countCalls_genEvents (v1 v2 : String) (ir : Nat) :
    countCalls (genEvents v1 v2 ir) = 0 := by
  simp only [countCalls, genEvents, List.length_eq_zero]
  rw [List.filter_eq_nil_iff]
  intro e he
  simp only [List.mem_flatMap, List.mem_range, List.mem_cons] at he
  obtain ⟨i, -, h⟩ := he
  rcases h with h | h | h <;> simp_all [Ev.isCall]

/-- The timed loop contributes exactly one call event per internal run. -/
lemma countCalls_callEvents (op : String) (ir : Nat) :
    countCalls (callEvents op ir) = ir := by
  simp only [countCalls, callEvents]
  rw [List.filter_eq_self.mpr]
  · simp
  · intro e he
    simp only [List.mem_map, List.mem_range] at he
    obtain ⟨i, -, rfl⟩ := he
    rfl

/-- `countCalls` distributes over list append. -/
lemma countCalls_append (s t : List Ev) :
    countCalls (s ++ t) = countCalls s + countCalls t := by
  simp [countCalls, List.filter_append]

/-- An operation with a named `benchmark_operation` arm is exactly one of
the ten whitelisted operation strings. -/
lemma knownOperation_iff_mem (op : String) :
    knownOperation op = true ↔ op ∈ allowedOperations := by
  constructor
  · intro h
    unfold knownOperation at h
    split at h <;> first
      | decide
      | simp_all
  · intro h
    fin_cases h <;> rfl

/-- For a whitelisted operation, one `benchmark_operation` trace is the
generation events, the timer start, the call events, and the timer stop, in
that order. -/
lemma benchTrace_decomp {op : String} (h : op ∈ allowedOperations) (ir : Nat) :
    ∃ v1 v2, benchTrace op ir =
      genEvents v1 v2 ir ++ [Ev.timerStart] ++ callEvents op ir ++ [Ev.timerStop] := by
  fin_cases h
  · exact ⟨"inputs_a", "inputs_b", by simp [benchTrace, benchBody]⟩
  · exact ⟨"inputs_a", "inputs_b", by simp [benchTrace, benchBody]⟩
  · exact ⟨"inputs_a", "inputs_b", by simp [benchTrace, benchBody]⟩
  · exact ⟨"inputs_a", "inputs_b", by simp [benchTrace, benchBody]⟩
  · exact ⟨"inputs_a", "inputs_b", by simp [benchTrace, benchBody]⟩
  · exact ⟨"inputs_a", "inputs_b", by simp [benchTrace, benchBody]⟩
  · exact ⟨"inputs", "scalars", by simp [benchTrace, benchBody]⟩
  · exact ⟨"inputs_a", "inputs_b", by simp [benchTrace, benchBody]⟩
  · exact ⟨"inputs", "scalars", by simp [benchTrace, benchBody]⟩
  · exact ⟨"g1_inputs", "g2_inputs", by simp [benchTrace, benchBody]⟩

/-- For a known operation, the trace of one `benchmark_operation` call holds
exactly `internal_runs` library invocations. -/
lemma countCalls_benchTrace (op : String) (ir : Nat) (h : knownOperation op = true) :
    countCalls (benchTrace op ir) = ir := by
  obtain ⟨v1, v2, heq⟩ := benchTrace_decomp ((knownOperation_iff_mem op).mp h) ir
  rw [heq]
  simp only [countCalls_append, countCalls_genEvents, countCalls_callEvents]
  simp [countCalls, Ev.isCall]

/-- Every event of a generation block is an input-generation event. -/
lemma isGen_of_mem_genEvents {v1 v2 : String} {ir : Nat} {e : Ev}
    (h : e ∈ genEvents v1 v2 ir) : e.isGen = true := by
  simp only [genEvents, List.mem_flatMap, List.mem_range, List.mem_cons] at h
  obtain ⟨i, -, h⟩ := h
  rcases h with h | h | h <;> simp_all [Ev.isGen]

/-- Every event of a timed loop block is a library-call event. -/
lemma isCall_of_mem_callEvents {op : String} {ir : Nat} {e : Ev}
    (h : e ∈ callEvents op ir) : e.isCall = true := by
  simp only [callEvents, List.mem_map, List.mem_range] at h
  obtain ⟨i, -, rfl⟩ := h
  rfl

/-- The run loop always prints one line per run and ends in success when no
`transact` fails. -/
lemma revmRunsOut_spec {DB TxRes : Type} (transact : DB → Option TxRes)
    (commit : DB → TxRes → DB) (elapsedOf : Nat → Rat)
    (htr : ∀ d, (transact d).isSome = true) :
    ∀ (n : Nat) (db : DB) (k : Nat),
      (revmRunsOut transact commit elapsedOf n db k).lines.length = n ∧
      (revmRunsOut transact commit elapsedOf n db k).status = ExitStatus.success := by
  intro n
  induction n with
  | zero => intro db k; simp [revmRunsOut]
  | succ n ih =>
    intro db k
    obtain ⟨r, hr⟩ := Option.isSome_iff_exists.mp (htr db)
    simp [revmRunsOut, hr, ih (commit db r) (k + 1)]

/-- A successful Rust unsigned parse is bounded by the type maximum. -/
lemma rustParseUnsigned_le {m v : Nat} {s : List Char}
    (h : rustParseUnsigned m s = some v) : v ≤ m := by
  unfold rustParseUnsigned at h
  rw [Option.bind_eq_some] at h
  obtain ⟨w, -, hif⟩ := h
  by_cases hle : w ≤ m
  · rw [if_pos hle] at hif
    injection hif with hif
    omega
  · rw [if_neg hle] at hif
    exact absurd hif (by simp)

/-- A value that parses under a wide unsigned type but exceeds a narrower
maximum fails to parse under the narrower type. -/
lemma rustParseUnsigned_gt_none (m2 : Nat) {m1 v : Nat} {s : List Char}
    (h : rustParseUnsigned m1 s = some v) (hv : m2 < v) :
    rustParseUnsigned m2 s = none := by
  unfold rustParseUnsigned at h ⊢
  rw [Option.bind_eq_some] at h
  obtain ⟨w, hw, hif⟩ := h
  have hwv : w = v := by
    by_cases hle : w ≤ m1
    · rw [if_pos hle] at hif
      exact Option.some.inj hif
    · rw [if_neg hle] at hif
      exact absurd hif (by simp)
  subst hwv
  rw [hw, Option.some_bind, if_neg (by omega)]

/-- Unrecognised arguments are silently skipped by the flag loop. -/
lemma revmParseLoop_cons_other {a : String} (h1 : a ≠ "--contract-code-path")
    (h2 : a ≠ "--calldata") (h3 : a ≠ "--num-runs") (rest : List String)
    (acc : RevmArgs) :
    revmParseLoop (a :: rest) acc = revmParseLoop rest acc := by
  rw [revmParseLoop.eq_def]
  split <;> simp_all

lemma revmParseLoop_numRuns :
    ∀ (l : List String) (acc : RevmArgs), "--num-runs" ∉ l →
      ∀ cfg, revmParseLoop l acc = some cfg → cfg.numRuns = acc.numRuns := by
  intro l acc
  induction l, acc using revmParseLoop.induct with
  | case1 acc =>
    intro _ cfg h
    simp only [revmParseLoop, Option.some.injEq] at h
    simp [← h]
  | case2 v rest acc ih =>
    intro hmem cfg h
    simp only [revmParseLoop] at h
    exact ih (fun hm => hmem (by simp [hm])) cfg h
  | case3 acc =>
    intro _ cfg h
    simp [revmParseLoop] at h
  | case4 v rest acc ih =>
    intro hmem cfg h
    simp only [revmParseLoop] at h
    exact ih (fun hm => hmem (by simp [hm])) cfg h
  | case5 acc =>
    intro _ cfg h
    simp [revmParseLoop] at h
  | case6 v rest acc d hd ih =>
    intro hmem
    exact absurd (List.mem_cons_self _ _) hmem
  | case7 v rest acc hd =>
    intro hmem
    exact absurd (List.mem_cons_self _ _) hmem
  | case8 acc =>
    intro hmem
    exact absurd (List.mem_cons_self _ _) hmem
  | case9 a rest acc hx5 hx4 hx3 hx2 hx1 hx0 ih =>
    intro hmem cfg h
    have hne1 : a ≠ "--contract-code-path" := by
      intro he
      cases rest with
      | nil => exact hx4 he rfl
      | cons b l => exact hx5 b l he rfl
    have hne2 : a ≠ "--calldata" := by
      intro he
      cases rest with
      | nil => exact hx2 he rfl
      | cons b l => exact hx3 b l he rfl
    have hne3 : a ≠ "--num-runs" := fun he => hmem (by simp [he])
    rw [revmParseLoop_cons_other hne1 hne2 hne3] at h
    exact ih (fun hm => hmem (by simp [hm])) cfg h

/-! ## Claims -/

/-- C1: for every valid invocation with num-runs equal to N, the driver
prints exactly N stdout lines — each line carrying the single numeric
timing value of one run — and the process exits with status zero.  Stated
for the crypto driver (any whitelisted operation and any num-runs string
that parses as a `u32`) and for the revm driver (any argument list whose
flags parse, readable contract file, decodable hex, successful deployment
and transactions). -/
theorem claim_C1_one_line_per_run :
    (∀ (elapsedOf : Nat → Rat) (op nrStr : String) (n : Nat),
      op ∈ allowedOperations →
      rustParseUnsigned u32Max nrStr.toList = some n →
      (cryptoMain elapsedOf (some op) (some nrStr)).lines.length = n ∧
        (cryptoMain elapsedOf (some op) (some nrStr)).status = ExitStatus.success) ∧
    (∀ (DB TxRes : Type) (transact : DB → Option TxRes) (commit : DB → TxRes → DB)
      (db0 : DB) (elapsedOf : Nat → Rat) (content : String) (addr : Nat)
      (args : List String) (cfg : RevmArgs) (code cd : List Nat),
      revmParseArgs args = some cfg →
      hexDecode (trim0x (trimChars content.toList)) = some code →
      hexDecode (trim0x cfg.calldataHex.toList) = some cd →
      (∀ d, (transact d).isSome = true) →
      (revmMain transact commit db0 elapsedOf (some content) (some addr) args).lines.length
          = cfg.numRuns ∧
        (revmMain transact commit db0 elapsedOf (some content) (some addr) args).status
          = ExitStatus.success) := by
  constructor
  · intro elapsedOf op nrStr n hop hparse
    have hknown := knownOperation_of_mem hop
    simp only [cryptoMain, cryptoGetMatches, if_pos hop, hparse]
    by_cases h0 : n = 0
    · subst h0
      simp
    · simp [h0, hknown]
  · intro DB TxRes transact commit db0 elapsedOf content addr args cfg code cd
      hargs hcode hcd htr
    simp only [revmMain, hargs, hcode, hcd]
    exact revmRunsOut_spec transact commit elapsedOf htr cfg.numRuns db0 0

/-- C1 witness at concrete inputs: the crypto driver with `Pairing`, 3 runs
and the revm driver with 2 runs. -/
theorem claim_C1_one_line_per_run_witness :
    (cryptoMain (fun _ => 0) (some "Pairing") (some "3")).lines.length = 3 ∧
      (cryptoMain (fun _ => 0) (some "Pairing") (some "3")).status = ExitStatus.success ∧
      (revmMain (fun _ : Unit => some 0) (fun d _ => d) () (fun _ => 0)
          (some "6001") (some 5) ["--num-runs", "2"]).lines.length = 2 ∧
      (revmMain (fun _ : Unit => some 0) (fun d _ => d) () (fun _ => 0)
          (some "6001") (some 5) ["--num-runs", "2"]).status = ExitStatus.success := by
  have hc := claim_C1_one_line_per_run.1 (fun _ => 0) "Pairing" "3" 3 (by decide) (by decide)
  have hr := claim_C1_one_line_per_run.2 Unit Nat (fun _ => some 0) (fun d _ => d) ()
    (fun _ => 0) "6001" 5 ["--num-runs", "2"]
    { contractCodePath := "", calldataHex := "", numRuns := 2 } [0x60, 0x01] []
    (by decide) (by decide) (by decide) (fun d => rfl)
  exact ⟨hc.1, hc.2, hr.1, hr.2⟩

/-- C2 (amended): in the revm driver the timed region of each run contains
exactly one `transact` invocation, but in the crypto driver each printed
timing value is the elapsed time of the whole internal loop —
`internal_runs` invocations of the library operation per printed line, not
one. -/
theorem claim_C2_calls_per_timing :
    (∀ (op : String) (ir : Nat), knownOperation op = true →
      countCalls (benchTrace op ir) = ir) ∧
    countTransacts revmRunTrace = 1 :=
  ⟨fun op ir h => countCalls_benchTrace op ir h, by decide⟩

/-- C2 witness: the `G2.mul` trace with 4 internal runs holds 4 library
invocations. -/
theorem claim_C2_calls_per_timing_witness :
    countCalls (benchTrace "G2.mul" 4) = 4 :=
  claim_C2_calls_per_timing.1 "G2.mul" 4 (by decide)

/-- C2 counterexample: with operation `FpMont.add` the crypto driver's main
selects 400000 internal runs, so the timed region behind each printed value
contains 400000 library invocations — not the single invocation the claim
asserts. -/
theorem claim_C2_counterexample :
    countCalls (benchTrace "FpMont.add" (internalRunsFor "FpMont.add")) = 400000 ∧
      internalRunsFor "FpMont.add" ≠ 1 := by
  have h := countCalls_benchTrace "FpMont.add" (internalRunsFor "FpMont.add") rfl
  have h400 : internalRunsFor "FpMont.add" = 400000 := rfl
  rw [h400] at h
  exact ⟨h, by rw [h400]; omega⟩

/-- C3 (amended): state IS carried between revm benchmark runs.  Iteration
`k` of the run loop executes the transaction against the database obtained
by committing the previous `k` transaction results onto the initial state;
all iterations see the initial state only in the degenerate situation where
committing a transact result never changes the database. -/
theorem claim_C3_state_carried :
    (∀ (DB TxRes : Type) (transact : DB → TxRes) (commit : DB → TxRes → DB)
      (n : Nat) (db0 : DB) (k : Nat),
      (revmDbTrace transact commit n db0)[k]? =
        if k < n then some ((fun d => commit d (transact d))^[k] db0) else none) ∧
    (∀ (DB TxRes : Type) (transact : DB → TxRes) (commit : DB → TxRes → DB)
      (n : Nat) (db0 : DB),
      (∀ d, commit d (transact d) = d) →
      ∀ db ∈ revmDbTrace transact commit n db0, db = db0) := by
  constructor
  · intro DB TxRes transact commit n
    induction n with
    | zero => intro db0 k; simp [revmDbTrace]
    | succ n ih =>
      intro db0 k
      cases k with
      | zero => simp [revmDbTrace]
      | succ k =>
        simp only [revmDbTrace, List.getElem?_cons_succ, ih, Nat.succ_lt_succ_iff,
          Function.iterate_succ_apply]
  · intro DB TxRes transact commit n
    induction n with
    | zero => intro db0 _ db hdb; simp [revmDbTrace] at hdb
    | succ n ih =>
      intro db0 hfix db hdb
      simp only [revmDbTrace, List.mem_cons] at hdb
      rcases hdb with rfl | hdb
      · rfl
      · rw [hfix db0] at hdb
        exact ih db0 hfix db hdb

/-- C3 witness: with a commit that increments the database (revm's caller
nonce bump) the third run sees the twice-committed state; with a no-op
commit every run sees the initial state. -/
theorem claim_C3_state_carried_witness :
    (revmDbTrace (fun db : Nat => db) (fun db _ => db + 1) 3 0)[0]? = some 0 ∧
      (0 : Nat) = 0 := by
  constructor
  · have h := claim_C3_state_carried.1 Nat Nat (fun db => db) (fun db _ => db + 1) 3 0 0
    simpa using h
  · exact claim_C3_state_carried.2 Nat Nat (fun db => db) (fun db _ => db) 3 0
      (fun d => rfl) 0 (by decide)

/-- C3 counterexample: committing each transaction result (modelled as
revm's caller-nonce increment) makes the second of two runs execute against
database state 1, not the state 0 the first run saw. -/
theorem claim_C3_counterexample :
    revmDbTrace (fun db : Nat => db) (fun db _ => db + 1) 2 0 = [0, 1] ∧
      ¬ (∀ db ∈ revmDbTrace (fun db : Nat => db) (fun db _ => db + 1) 2 0, db = 0) := by
  decide

/-- C4 (amended): the revm driver indeed validates nothing — any strings
are accepted for its flags — and its only failure mode is a panic; but the
crypto driver does validate: clap rejects an `--operation` value outside
the ten-entry whitelist, requires both `--operation` and `--num-runs`, and
the unknown-operation fallback in `benchmark_operation` is a handled
`exit(1)`, not an unwrap. -/
theorem claim_C4_validation :
    (∀ p c : String, revmParseArgs ["--contract-code-path", p, "--calldata", c] =
        some { contractCodePath := p, calldataHex := c, numRuns := 1 }) ∧
    (∀ (s : String) (rest : List String), rustParseUnsigned 255 s.toList = none →
        revmParseArgs ("--num-runs" :: s :: rest) = none) ∧
    cryptoGetMatches (some "bogus") (some "5") =
        .error (.invalidValue "operation") ∧
    cryptoGetMatches none (some "5") = .error (.missingRequired "operation") ∧
    cryptoGetMatches (some "Pairing") none = .error (.missingRequired "num-runs") ∧
    benchTrace "bogus" 1000 = [Ev.exitProcess 1] := by
  refine ⟨?_, ?_, rfl, rfl, rfl, rfl⟩
  · intro p c
    simp [revmParseArgs, revmParseLoop]
  · intro s rest h
    simp only [String.toList] at h
    simp [revmParseArgs, revmParseLoop, h]

/-- C4 witness at concrete inputs. -/
theorem claim_C4_validation_witness :
    revmParseArgs ["--contract-code-path", "path", "--calldata", "0xdead"] =
        some { contractCodePath := "path", calldataHex := "0xdead", numRuns := 1 } ∧
      revmParseArgs ["--num-runs", "abc"] = none :=
  ⟨claim_C4_validation.1 "path" "0xdead", claim_C4_validation.2.1 "abc" [] (by decide)⟩

/-- C4 counterexample: the crypto driver's clap configuration rejects an
operation value outside its whitelist and reports a missing required
`--operation` — so arguments are validated against an allowed set and
required to be present, contrary to the claim. -/
theorem claim_C4_counterexample :
    cryptoGetMatches (some "bogus") (some "5") =
        .error (.invalidValue "operation") ∧
      cryptoGetMatches none (some "5") = .error (.missingRequired "operation") :=
  ⟨rfl, rfl⟩

/-- C5: the repository's external interface includes a positional argument
form `<num_runs> [internal|external]`: the (spec-modelled) positional
driver accepts a run count alone, or followed by the `internal` or
`external` selector. -/
theorem claim_C5_positional_form :
    positionalParse ["10", "internal"] = some (10, some RunMode.modeInternal) ∧
      positionalParse ["7"] = some (7, none) ∧
      positionalParse ["5", "external"] = some (5, some RunMode.modeExternal) := by
  decide

/-- C6: every run of the crypto driver's num_runs loop freshly creates its
two input vectors inside that run's `benchmark_operation` call — run `k`'s
inputs are `benchInputs op internal_runs`, a function of the operation and
internal-run count alone with no dependence on earlier runs — and both
vectors have length `internal_runs`. -/
theorem claim_C6_inputs_fresh :
    ∀ op ∈ allowedOperations, ∀ (ir n k : Nat), k < n →
      (cryptoRunInputs op ir n)[k]? = some (benchInputs op ir) ∧
      ∃ va vb, benchInputs op ir = some (va, vb) ∧
        va.length = ir ∧ vb.length = ir := by
  intro op hop ir n k hk
  constructor
  · simp [cryptoRunInputs, hk]
  · refine ⟨(genPairVecs 0 ir).1, (genPairVecs 0 ir).2.1, ?_,
      (genPairVecs_length 0 ir).1, (genPairVecs_length 0 ir).2⟩
    simp [benchInputs, knownOperation_of_mem hop]

/-- C6 witness: the second of three `G1.add` runs with 2 internal runs. -/
theorem claim_C6_inputs_fresh_witness :
    (cryptoRunInputs "G1.add" 2 3)[1]? = some (benchInputs "G1.add" 2) ∧
      benchInputs "G1.add" 2 = some ([0, 2], [1, 3]) := by
  have h := claim_C6_inputs_fresh "G1.add" (by decide) 2 3 1 (by decide)
  exact ⟨h.1, by decide⟩

/-- C7: observable order is parse → generate → timed loop → print.  For
every whitelisted operation the crypto trace is generation events, then the
timer start, then only library-call events, then the timer stop; and the
revm trace is file read, hex decoding, deployment and EVM construction
before the run loop, whose timed region holds exactly the `transact`
call. -/
theorem claim_C7_inputs_before_timer :
    (∀ op ∈ allowedOperations, ∀ ir : Nat, ∃ g c,
      benchTrace op ir = g ++ [Ev.timerStart] ++ c ++ [Ev.timerStop] ∧
      (∀ e ∈ g, e.isGen = true) ∧ (∀ e ∈ c, e.isCall = true) ∧ c.length = ir) ∧
    (∀ n : Nat, revmMainTrace n =
        revmSetupTrace ++ (List.range n).flatMap (fun _ => revmRunTrace)) ∧
    (∀ e ∈ revmSetupTrace, e ≠ REv.timerStart) ∧
    revmRunTrace =
      [REv.timerStart, REv.transactCall, REv.timerStop, REv.commitCall,
       REv.printLine] := by
  refine ⟨?_, fun n => rfl, by decide, rfl⟩
  intro op hop ir
  obtain ⟨v1, v2, heq⟩ := benchTrace_decomp hop ir
  refine ⟨genEvents v1 v2 ir, callEvents op ir, heq, ?_, ?_, ?_⟩
  · exact fun e he => isGen_of_mem_genEvents he
  · exact fun e he => isCall_of_mem_callEvents he
  · simp [callEvents]

/-- C7 witness: the `Pairing` trace with 2 internal runs decomposes as
generation, timer start, calls only, timer stop. -/
theorem claim_C7_inputs_before_timer_witness :
    ∃ g c, benchTrace "Pairing" 2 = g ++ [Ev.timerStart] ++ c ++ [Ev.timerStop] ∧
      (∀ e ∈ g, e.isGen = true) ∧ (∀ e ∈ c, e.isCall = true) ∧ c.length = 2 :=
  claim_C7_inputs_before_timer.1 "Pairing" (by decide) 2

/-- C8: for every runtime bytecode length up to `0xFFFFFFFF`,
`deploy_contract`'s constructor synthesis succeeds (its
"Constructor too large" branch is unreachable), the CODECOPY offset is
emitted as a single PUSH1 whose encoded operand `cs` is at most `0xFF`, and
`cs` equals the byte length of the constructor that precedes the runtime
code. -/
theorem claim_C8_offset_push1 (n : Nat) (h : n ≤ 0xFFFFFFFF) :
    ∃ first code cs, firstPush n = .ok first ∧
      deployConstructorCode n = .ok code ∧
      cs ≤ 0xFF ∧
      code = first ++ [0x60, cs] ++ [0x60, 0x00, 0x39] ++ secondPush n ++
        [0x60, 0x00, 0xf3] ∧
      cs = code.length := by
  by_cases h1 : n ≤ 0xFF
  · refine ⟨[0x60, n % 256], _, 12, ?_, ?_, by norm_num, rfl, ?_⟩
    · simp [firstPush, h1]
    · simp [deployConstructorCode, firstPush, constructorSizeBeforeOffset,
        secondPushSizeAdd, h1]
    · simp [secondPush, h1]
  · by_cases h2 : n ≤ 0xFFFF
    · refine ⟨[0x61, n / 256 % 256, n % 256], _, 14, ?_, ?_, by norm_num, rfl, ?_⟩
      · simp [firstPush, h1, h2]
      · simp [deployConstructorCode, firstPush, constructorSizeBeforeOffset,
          secondPushSizeAdd, h1, h2]
      · simp [secondPush, h1, h2]
    · by_cases h3 : n ≤ 0xFFFFFF
      · refine ⟨[0x62, n / 65536 % 256, n / 256 % 256, n % 256], _, 16,
          ?_, ?_, by norm_num, rfl, ?_⟩
        · simp [firstPush, h1, h2, h3]
        · simp [deployConstructorCode, firstPush, constructorSizeBeforeOffset,
            secondPushSizeAdd, h1, h2, h3]
        · simp [secondPush, h1, h2, h3]
      · refine ⟨[0x63, n / 16777216 % 256, n / 65536 % 256, n / 256 % 256, n % 256],
          _, 18, ?_, ?_, by norm_num, rfl, ?_⟩
        · simp [firstPush, h1, h2, h3, h]
        · simp [deployConstructorCode, firstPush, constructorSizeBeforeOffset,
            secondPushSizeAdd, h1, h2, h3, h]
        · simp [secondPush, h1, h2, h3]

/-- C8 witness at runtime size 3. -/
theorem claim_C8_offset_push1_witness :
    ∃ first code cs, firstPush 3 = .ok first ∧
      deployConstructorCode 3 = .ok code ∧
      cs ≤ 0xFF ∧
      code = first ++ [0x60, cs] ++ [0x60, 0x00, 0x39] ++ secondPush 3 ++
        [0x60, 0x00, 0xf3] ∧
      cs = code.length :=
  claim_C8_offset_push1 3 (by norm_num)

/-- C9: the revm driver stores the run count as a `u8` — a `--num-runs`
value parsing to `v ≤ 255` yields exactly `v` runs (each printing one
line), the default without the flag is 1 run, and a non-numeric or
over-255 value makes the parse fail, hence `.unwrap()` panic — while the
crypto driver's `u32` parse accepts values up to `2^32 - 1`. -/
theorem claim_C9_numruns_u8 :
    (∀ (s : String) (v : Nat), rustParseUnsigned 255 s.toList = some v →
      v ≤ 255 ∧ revmParseArgs ["--num-runs", s] =
        some { contractCodePath := "", calldataHex := "", numRuns := v }) ∧
    (∀ (args : List String) (cfg : RevmArgs), "--num-runs" ∉ args →
      revmParseArgs args = some cfg → cfg.numRuns = 1) ∧
    (∀ (s : String) (rest : List String), rustParseUnsigned 255 s.toList = none →
      revmParseArgs ("--num-runs" :: s :: rest) = none) ∧
    (∀ (s : List Char) (v : Nat), rustParseUnsigned u32Max s = some v → 255 < v →
      rustParseUnsigned 255 s = none) ∧
    rustParseUnsigned u32Max (String.toList "4294967295") = some u32Max ∧
    (∀ (DB TxRes : Type) (transact : DB → Option TxRes) (commit : DB → TxRes → DB)
      (elapsedOf : Nat → Rat) (n : Nat) (db0 : DB) (k : Nat),
      (∀ d, (transact d).isSome = true) →
      (revmRunsOut transact commit elapsedOf n db0 k).lines.length = n) := by
  refine ⟨?_, ?_, ?_, ?_, by decide, ?_⟩
  · intro s v h
    refine ⟨rustParseUnsigned_le h, ?_⟩
    simp only [String.toList] at h
    simp [revmParseArgs, revmParseLoop, h]
  · intro args cfg hmem h
    exact revmParseLoop_numRuns args {} hmem cfg h
  · intro s rest h
    simp only [String.toList] at h
    simp [revmParseArgs, revmParseLoop, h]
  · intro s v h hv
    exact rustParseUnsigned_gt_none 255 h hv
  · intro DB TxRes transact commit elapsedOf n db0 k htr
    exact (revmRunsOut_spec transact commit elapsedOf htr n db0 k).1

/-- C9 witness: `--num-runs 7` parses and stores 7. -/
theorem claim_C9_numruns_u8_witness :
    (7 : Nat) ≤ 255 ∧ revmParseArgs ["--num-runs", "7"] =
        some { contractCodePath := "", calldataHex := "", numRuns := 7 } :=
  claim_C9_numruns_u8.1 "7" 7 (by decide)

/-- C10: every operation in the clap whitelist has a named
`benchmark_operation` arm (so the exit(1) wildcard is unreachable for it)
and a specific positive `internal_runs` constant distinct from the 1000
fallback. -/
theorem claim_C10_whitelist_total :
    ∀ op ∈ allowedOperations,
      knownOperation op = true ∧
      (∀ ir : Nat, (benchBody op ir).isSome = true) ∧
      0 < internalRunsFor op ∧ internalRunsFor op ≠ 1000 := by
  intro op hop
  fin_cases hop <;> exact ⟨rfl, fun ir => rfl, by decide, by decide⟩

/-- C10 witness at operation `G2.mul`. -/
theorem claim_C10_whitelist_total_witness :
    knownOperation "G2.mul" = true ∧ (benchBody "G2.mul" 3).isSome = true ∧
      0 < internalRunsFor "G2.mul" ∧ internalRunsFor "G2.mul" ≠ 1000 :=
  ⟨(claim_C10_whitelist_total "G2.mul" (by decide)).1,
   (claim_C10_whitelist_total "G2.mul" (by decide)).2.1 3,
   (claim_C10_whitelist_total "G2.mul" (by decide)).2.2.1,
   (claim_C10_whitelist_total "G2.mul" (by decide)).2.2.2⟩

end Guillotine
